import Mathlib

/-!
Shallow embedding of `pyreolink/__init__.py` (class `PyReolink`).

Modelling conventions:
* Parsed JSON values and other Python values flowing through the code are
  modelled by `PyVal`; the Python value `None` is `PyVal.none`.
* The `requests` transport is modelled as a function from the 1-based attempt
  number to an outcome: an HTTP response (status code plus already-parsed JSON
  body) or a raised transport-level exception.  `PyReolink.query` has no
  `try`/`except`, so a raised exception propagates; computations that can raise
  return `Except String _`, the `String` naming the Python exception.
* Mutation of `self.__token` and of the caller-supplied `query_params` dict is
  embedded by explicit state passing: `query` returns the post-state of the
  caller's dict, the list of HTTP requests actually sent, and the returned
  value (or the exception that escaped).
-/

/-- A Python value as it appears in this code: `None`, booleans, ints, strings,
lists and dicts with string keys (the shapes produced by `response.json()`). -/
inductive PyVal where
  | none
  | bool (b : Bool)
  | int (n : Int)
  | str (s : String)
  | list (xs : List PyVal)
  | dict (fields : List (String × PyVal))


/-- Outcome of one HTTP attempt by the `requests` session: a response carrying
the HTTP status code and the parsed JSON body, or a raised transport exception
(connection error, timeout, ...) named by a string. -/
inductive TransportOutcome where
  | response (status : Nat) (body : PyVal)
  | raise (e : String)


/-- A transport: what the HTTP layer does on each (1-based) attempt. -/
def Transport : Type := Nat → TransportOutcome

/-- One HTTP request as actually sent by an iteration of `query`'s loop:
`session.get(url, ...)` sends no JSON body, `session.post(url, json=body, ...)`
attaches `body`.  `params` records the query parameters encoded into the URL. -/
structure SentRequest where
  method : String
  params : List (String × PyVal)
  body : Option PyVal


/-- Python `d[0]` on the value returned by `query` (which may be `None`).
`None`, ints and booleans are not subscriptable (`TypeError`); an empty list or
string gives `IndexError`; a JSON-parsed dict has only string keys, so the int
key `0` is absent (`KeyError`). -/
def subscript0 : Option PyVal → Except String PyVal
  | Option.none => Except.error "TypeError"
  | some PyVal.none => Except.error "TypeError"
  | some (PyVal.bool _) => Except.error "TypeError"
  | some (PyVal.int _) => Except.error "TypeError"
  | some (PyVal.str s) =>
      match s.data with
      | [] => Except.error "IndexError"
      | c :: _ => Except.ok (PyVal.str (String.mk [c]))
  | some (PyVal.list []) => Except.error "IndexError"
  | some (PyVal.list (x :: _)) => Except.ok x
  | some (PyVal.dict _) => Except.error "KeyError"

/-- Python `isinstance(v, dict)`. -/
def isDict : PyVal → Bool
  | PyVal.dict _ => true
  | _ => false

/-- Python `d.get(k)` applied under an `isinstance(d, dict)` guard: returns the
value bound to `k`, or `None` when the key is absent.  (Only ever applied to
dicts in the source; the non-dict case is unreachable there.) -/
def dictGet : PyVal → String → PyVal
  | PyVal.dict d, k => (List.lookup k d).getD PyVal.none
  | _, _ => PyVal.none

/-- Python `v.get(k)` applied WITHOUT a guard (the nested accesses
`data.get('value').get('Token').get('name')` etc.): on a non-dict — in
particular on `None` — attribute lookup of `get` raises `AttributeError`. -/
def pyGet : PyVal → String → Except String PyVal
  | PyVal.dict d, k => Except.ok ((List.lookup k d).getD PyVal.none)
  | _, _ => Except.error "AttributeError"

/-- Python `v == n` for an int literal `n` (the `data.get('code') == 0` tests):
ints compare numerically and `bool` is an int subtype (`False == 0`); every
other value (including `None`) compares unequal. -/
def pyEqInt : PyVal → Int → Bool
  | PyVal.int m, n => m == n
  | PyVal.bool b, n => (if b then (1 : Int) else 0) == n
  | _, _ => false

/-- Python `query_params.update({k: v})`: overwrite the binding of `k` in place
when present, otherwise append it. -/
def dictUpdate (d : List (String × PyVal)) (k : String) (v : PyVal) :
    List (String × PyVal) :=
  if (List.lookup k d).isSome then
    d.map (fun p => if p.1 = k then (k, v) else p)
  else d ++ [(k, v)]

/-- The query-parameter dict after `query`'s prologue (`query_params = {}` when
the caller passed `None`, then `query_params.update({'token': ...})` whenever
`self.__token is not None`). -/
def effParams (token : PyVal) (query_params : Option (List (String × PyVal))) :
    List (String × PyVal) :=
  let qp := query_params.getD []
  match token with
  | PyVal.none => qp
  | t => dictUpdate qp "token" t

/-- The `while attempt <= retry` loop of `query`, as recursion on the number of
remaining attempts (`fuel`; initially `retry = 3`, with `attempt` starting at
1).  Each iteration sends the same URL/body; `if response and
(response.status_code == 200)` breaks with the parsed body exactly when the
status is 200 (a 200 response is truthy); a method other than GET/POST leaves
`response = None`, which is falsy, so the loop just runs out.  A raised
transport exception propagates (there is no `try`). -/
def queryLoop (T : Transport) (method : String)
    (params : List (String × PyVal)) (body : Option PyVal) :
    Nat → Nat → List SentRequest × Except String (Option PyVal)
  | _, 0 => ([], Except.ok Option.none)
  | attempt, fuel + 1 =>
    if method = "GET" ∨ method = "POST" then
      let req : SentRequest :=
        ⟨method, params, if method = "POST" then body else Option.none⟩
      match T attempt with
      | TransportOutcome.raise e => ([req], Except.error e)
      | TransportOutcome.response status bd =>
        if status = 200 then ([req], Except.ok (some bd))
        else
          let rest := queryLoop T method params body (attempt + 1) fuel
          (req :: rest.1, rest.2)
    else
      queryLoop T method params body (attempt + 1) fuel

/-- Result of one call to `PyReolink.query`: the post-state of the
caller-supplied `query_params` dict (mutated in place by the `update`), the
requests sent, and the value returned — `Except.error` when an uncaught
exception escaped `query`. -/
structure QueryCall where
  paramsAfter : List (String × PyVal)
  sent : List SentRequest
  result : Except String (Option PyVal)


/-- `PyReolink.query(query_params, method, body, ...)`, with `self.__token`
passed explicitly and the transport abstracted.  `retry = 3`, `attempt = 1`. -/
def query (token : PyVal) (T : Transport)
    (query_params : Option (List (String × PyVal)))
    (method : String) (body : Option PyVal) : QueryCall :=
  let qp := effParams token query_params
  let lr := queryLoop T method qp body 1 3
  ⟨qp, lr.1, lr.2⟩

/-- The fields of a `PyReolink` object relevant here: `self.__base_url`,
`self.__username`, `self.__password` and the mutable `self.__token`
(a Python value, `PyVal.none` meaning unauthenticated). -/
structure PyReolinkState where
  base_url : String
  username : String
  password : String
  token : PyVal

/-- The request body built by `PyReolink.login`. -/
def loginBody (username password : String) : PyVal :=
  PyVal.list [PyVal.dict
    [("action", PyVal.int 0),
     ("cmd", PyVal.str "Login"),
     ("param", PyVal.dict
       [("User", PyVal.dict
         [("userName", PyVal.str username),
          ("password", PyVal.str password)])])]]

/-- `PyReolink.login`: one `query` with `query_params={'cmd': 'Login'}` and the
login body, then `data = data[0]`; if the first result is a dict with
`code == 0`, `self.__token = data.get('value').get('Token').get('name')`
(two unguarded `.get` chain steps that raise on a non-dict), else the token is
left unchanged and a failure is logged.  Returns the requests sent and either
the post-state or the escaped exception. -/
def login (st : PyReolinkState) (T : Transport) :
    List SentRequest × Except String PyReolinkState :=
  let c := query st.token T (some [("cmd", PyVal.str "Login")]) "POST"
    (some (loginBody st.username st.password))
  (c.sent,
   match c.result with
   | Except.error e => Except.error e
   | Except.ok data =>
     match subscript0 data with
     | Except.error e => Except.error e
     | Except.ok d =>
       if isDict d && pyEqInt (dictGet d "code") 0 then
         match pyGet (dictGet d "value") "Token" with
         | Except.error e => Except.error e
         | Except.ok tk =>
           match pyGet tk "name" with
           | Except.error e => Except.error e
           | Except.ok nm => Except.ok { st with token := nm }
       else Except.ok st)

/-- `PyReolink.__init__`: stores the connection parameters, initializes
`self.__token = None`, and immediately calls `self.login()`. -/
def init (base_url username password : String) (T : Transport) :
    List SentRequest × Except String PyReolinkState :=
  login ⟨base_url, username, password, PyVal.none⟩ T

/-- The request body built by `PyReolink.get_ir_lights`. -/
def getIrLightsBody : PyVal :=
  PyVal.list [PyVal.dict
    [("action", PyVal.int 1), ("cmd", PyVal.str "GetIrLights")]]

/-- `PyReolink.get_ir_lights`: one `query` (no query params, POST), then
`data = data[0]`; on a dict with `code == 0` it returns
`data.get('value').get('IrLights').get('state')` (unguarded nested `.get`),
else it logs a failure and returns `None`. -/
def get_ir_lights (st : PyReolinkState) (T : Transport) :
    List SentRequest × Except String PyVal :=
  let c := query st.token T Option.none "POST" (some getIrLightsBody)
  (c.sent,
   match c.result with
   | Except.error e => Except.error e
   | Except.ok data =>
     match subscript0 data with
     | Except.error e => Except.error e
     | Except.ok d =>
       if isDict d && pyEqInt (dictGet d "code") 0 then
         match pyGet (dictGet d "value") "IrLights" with
         | Except.error e => Except.error e
         | Except.ok ir => pyGet ir "state"
       else Except.ok PyVal.none)

/-- The request body built by `PyReolink.set_ir_lights(state)`. -/
def setIrLightsBody (state : String) : PyVal :=
  PyVal.list [PyVal.dict
    [("action", PyVal.int 0),
     ("cmd", PyVal.str "SetIrLights"),
     ("param", PyVal.dict
       [("IrLights", PyVal.dict [("state", PyVal.str state)])])]]

/-- `PyReolink.set_ir_lights(state)`: one `query`, then `data = data[0]`; the
Python function returns `None` on both branches and only the log differs, so
the model returns the `Bool` of the `code == 0` test (`true` = success logged,
`false` = failure logged). -/
def set_ir_lights (st : PyReolinkState) (T : Transport) (state : String) :
    List SentRequest × Except String Bool :=
  let c := query st.token T Option.none "POST" (some (setIrLightsBody state))
  (c.sent,
   match c.result with
   | Except.error e => Except.error e
   | Except.ok data =>
     match subscript0 data with
     | Except.error e => Except.error e
     | Except.ok d => Except.ok (isDict d && pyEqInt (dictGet d "code") 0))

/-- The request body built by `PyReolink.goto_ptz_preset(preset_id)`. -/
def gotoPtzPresetBody (preset_id : Int) : PyVal :=
  PyVal.list [PyVal.dict
    [("action", PyVal.int 0),
     ("cmd", PyVal.str "PtzCtrl"),
     ("param", PyVal.dict
       [("channel", PyVal.int 0),
        ("id", PyVal.int preset_id),
        ("op", PyVal.str "ToPos"),
        ("speed", PyVal.int 32)])]]

/-- `PyReolink.goto_ptz_preset(preset_id)`: same shape as `set_ir_lights`;
returns the `Bool` of the `code == 0` test (which branch was logged). -/
def goto_ptz_preset (st : PyReolinkState) (T : Transport) (preset_id : Int) :
    List SentRequest × Except String Bool :=
  let c := query st.token T Option.none "POST" (some (gotoPtzPresetBody preset_id))
  (c.sent,
   match c.result with
   | Except.error e => Except.error e
   | Except.ok data =>
     match subscript0 data with
     | Except.error e => Except.error e
     | Except.ok d => Except.ok (isDict d && pyEqInt (dictGet d "code") 0))

-- sanity: first attempt 200 returns the parsed body after one request
example :
    (query PyVal.none (fun _ => TransportOutcome.response 200 (PyVal.list []))
      Option.none "POST" (some (PyVal.list []))).result
      = Except.ok (some (PyVal.list [])) := rfl

example :
    (query PyVal.none (fun _ => TransportOutcome.response 500 PyVal.none)
      Option.none "POST" Option.none).result = Except.ok Option.none := rfl

example :
    (query PyVal.none (fun _ => TransportOutcome.response 500 PyVal.none)
      Option.none "POST" Option.none).sent.length = 3 := rfl

example :
    (query PyVal.none (fun _ => TransportOutcome.raise "ConnectionError")
      Option.none "POST" Option.none).result
      = Except.error "ConnectionError" := rfl

example :
    (query (PyVal.str "tok") (fun _ => TransportOutcome.response 200 PyVal.none)
      (some [("cmd", PyVal.str "Login")]) "POST" Option.none).paramsAfter
      = [("cmd", PyVal.str "Login"), ("token", PyVal.str "tok")] := rfl

example :
    (init "http://cam" "u" "p"
      (fun _ => TransportOutcome.response 200
        (PyVal.list [PyVal.dict
          [("code", PyVal.int 0),
           ("value", PyVal.dict
             [("Token", PyVal.dict [("name", PyVal.str "abc")])])]]))).2
    = Except.ok ⟨"http://cam", "u", "p", PyVal.str "abc"⟩ := rfl

example :
    (init "http://cam" "u" "p"
      (fun _ => TransportOutcome.response 500 PyVal.none)).2
    = Except.error "TypeError" := rfl

example :
    (init "http://cam" "u" "p"
      (fun _ => TransportOutcome.response 200
        (PyVal.list [PyVal.dict [("code", PyVal.int 1)]]))).2
    = Except.ok ⟨"http://cam", "u", "p", PyVal.none⟩ := rfl

example :
    (init "http://cam" "u" "p"
      (fun _ => TransportOutcome.response 200
        (PyVal.list [PyVal.dict [("code", PyVal.int 0)]]))).2
    = Except.error "AttributeError" := rfl

example :
    (get_ir_lights ⟨"b", "u", "p", PyVal.none⟩
      (fun _ => TransportOutcome.response 200
        (PyVal.list [PyVal.dict
          [("code", PyVal.int 0),
           ("value", PyVal.dict
             [("IrLights", PyVal.dict [("state", PyVal.str "Auto")])])]]))).2
    = Except.ok (PyVal.str "Auto") := rfl

example :
    (get_ir_lights ⟨"b", "u", "p", PyVal.none⟩
      (fun _ => TransportOutcome.response 200
        (PyVal.list [PyVal.dict [("code", PyVal.int 1)]]))).2
    = Except.ok PyVal.none := rfl

example :
    (set_ir_lights ⟨"b", "u", "p", PyVal.none⟩
      (fun _ => TransportOutcome.response 200
        (PyVal.list [PyVal.dict [("code", PyVal.int 0)]])) "Off").1
    = [⟨"POST", [], some (setIrLightsBody "Off")⟩] := rfl

/-! ### Helper lemmas about the query loop and the parameter dict -/

/-- Every request the loop sends is the one fixed request (same method, params
and body on every attempt): the URL and body are computed before the loop. -/
theorem queryLoop_sent_mem (T : Transport) (method : String)
    (params : List (String × PyVal)) (body : Option PyVal) :
    ∀ (fuel attempt : Nat) (r : SentRequest),
      r ∈ (queryLoop T method params body attempt fuel).1 →
      r = ⟨method, params, if method = "POST" then body else Option.none⟩ := by
  intro fuel
  induction fuel with
  | zero => intro attempt r hr; simp [queryLoop] at hr
  | succ f ih =>
    intro attempt r hr
    simp only [queryLoop] at hr
    split at hr
    · split at hr
      · simp at hr
        subst hr; rfl
      · split at hr
        · simp at hr
          subst hr; rfl
        · simp at hr
          rcases hr with h | h
          · subst h; rfl
          · exact ih _ _ h
    · exact ih _ _ hr

/-- Requests sent by `query` with method POST all carry the effective params
and the given body. -/
theorem query_sent_forall (tok : PyVal) (T : Transport)
    (qp : Option (List (String × PyVal))) (body : Option PyVal) :
    (query tok T qp "POST" body).sent.Forall
      (fun r => r = ⟨"POST", effParams tok qp, body⟩) := by
  rw [List.forall_iff_forall_mem]
  intro r hr
  simpa using queryLoop_sent_mem T "POST" (effParams tok qp) body 3 1 r hr

/-- After `d.update({k: v})`, looking up `k` yields `v`. -/
theorem lookup_dictUpdate (d : List (String × PyVal)) (k : String) (v : PyVal) :
    List.lookup k (dictUpdate d k v) = some v := by
  unfold dictUpdate
  split
  · rename_i hpres
    induction d with
    | nil => simp at hpres
    | cons p tl ih =>
      by_cases hk : p.1 = k
      · simp only [List.map_cons, if_pos hk]
        simp [List.lookup]
      · have hne : (k == p.1) = false := by
          simp [BEq.beq]
          intro h
          exact hk h.symm
        simp only [List.map_cons, if_neg hk]
        cases p with
        | mk a b =>
          simp only at hk hne
          rw [List.lookup] at hpres ⊢
          rw [hne] at hpres ⊢
          exact ih hpres
  · rename_i habs
    induction d with
    | nil => simp [List.lookup]
    | cons p tl ih =>
      cases p with
      | mk a b =>
        rw [List.cons_append, List.lookup]
        rw [List.lookup] at habs
        by_cases hk : (k == a) = true
        · rw [hk] at habs
          simp at habs
        · have hne : (k == a) = false := by simp at hk ⊢; exact hk
          rw [hne] at habs ⊢
          exact ih habs

/-- When the token is a non-`None` value, the effective params are the
caller's dict updated with the token binding. -/
theorem effParams_of_token (t : PyVal) (qp : Option (List (String × PyVal)))
    (h : t ≠ PyVal.none) :
    effParams t qp = dictUpdate (qp.getD []) "token" t := by
  cases t <;> first | exact absurd rfl h | rfl

/-- When the token is `None`, the params dict is left untouched. -/
theorem effParams_of_none (qp : Option (List (String × PyVal))) :
    effParams PyVal.none qp = qp.getD [] := rfl

/-! ### Claims about `query` (C1, C3, C7) -/

/-- Claim C1: for every call to `query`, the HTTP request is attempted at most
3 times; if the transport returns status 200 on the Nth attempt (N ≤ 3) and a
non-200 status before that, exactly N attempts are performed, each sending the
identical request (same method, query params and body), the response JSON is
parsed, the loop terminates immediately, and the parsed envelope is returned. -/
theorem claim_C1_retry_succeeds (tok : PyVal) (qp : Option (List (String × PyVal)))
    (body : Option PyVal) (T : Transport) (N : Nat) (env : PyVal)
    (hN1 : 1 ≤ N) (hN3 : N ≤ 3)
    (hbefore : ∀ i, 1 ≤ i → i < N →
      ∃ s b, T i = TransportOutcome.response s b ∧ s ≠ 200)
    (hhit : T N = TransportOutcome.response 200 env) :
    (query tok T qp "POST" body).sent.length = N ∧
    (query tok T qp "POST" body).sent.Forall
      (fun r => r = ⟨"POST", effParams tok qp, body⟩) ∧
    (query tok T qp "POST" body).result = Except.ok (some env) := by
  refine ⟨?_, query_sent_forall tok T qp body, ?_⟩ <;>
  · interval_cases N
    · simp [query, queryLoop, hhit]
    · obtain ⟨s, b, h1, hs1⟩ := hbefore 1 le_rfl (by norm_num)
      simp [query, queryLoop, h1, hs1, hhit]
    · obtain ⟨s1, b1, h1, hs1⟩ := hbefore 1 le_rfl (by norm_num)
      obtain ⟨s2, b2, h2, hs2⟩ := hbefore 2 (by norm_num) (by norm_num)
      simp [query, queryLoop, h1, hs1, h2, hs2, hhit]

/-- Witness for C1 at N = 2: non-200 on the first attempt, 200 on the second. -/
theorem claim_C1_retry_succeeds_witness :
    (query PyVal.none
      (fun i => if i = 1 then TransportOutcome.response 502 PyVal.none
                else TransportOutcome.response 200 (PyVal.list []))
      Option.none "POST" (some getIrLightsBody)).sent.length = 2 ∧
    (query PyVal.none
      (fun i => if i = 1 then TransportOutcome.response 502 PyVal.none
                else TransportOutcome.response 200 (PyVal.list []))
      Option.none "POST" (some getIrLightsBody)).sent.Forall
      (fun r => r = ⟨"POST", effParams PyVal.none Option.none,
                     some getIrLightsBody⟩) ∧
    (query PyVal.none
      (fun i => if i = 1 then TransportOutcome.response 502 PyVal.none
                else TransportOutcome.response 200 (PyVal.list []))
      Option.none "POST" (some getIrLightsBody)).result
      = Except.ok (some (PyVal.list [])) :=
  claim_C1_retry_succeeds PyVal.none Option.none (some getIrLightsBody) _ 2
    (PyVal.list []) (by norm_num) (by norm_num)
    (by
      intro i hi1 hi2
      have hi : i = 1 := by omega
      subst hi
      exact ⟨502, PyVal.none, rfl, by norm_num⟩)
    rfl

/-- Claim C7: whenever some attempt returns transport status 200, the parsed
JSON envelope is returned as-is, whatever the application-level codes inside
it; a 200 response is never retried (here: 200 on the first attempt means
exactly one request, any envelope). -/
theorem claim_C7_returns_envelope_as_is (tok : PyVal)
    (qp : Option (List (String × PyVal))) (body : Option PyVal)
    (T : Transport) (env : PyVal)
    (h : T 1 = TransportOutcome.response 200 env) :
    (query tok T qp "POST" body).result = Except.ok (some env) ∧
    (query tok T qp "POST" body).sent.length = 1 := by
  constructor <;> simp [query, queryLoop, h]

/-- Witness for C7: a 200 response whose only result has application-level
status code 2 is returned unchanged after a single attempt. -/
theorem claim_C7_returns_envelope_as_is_witness :
    (query PyVal.none
      (fun _ => TransportOutcome.response 200
        (PyVal.list [PyVal.dict [("code", PyVal.int 2)]]))
      Option.none "POST" (some getIrLightsBody)).result
      = Except.ok (some (PyVal.list [PyVal.dict [("code", PyVal.int 2)]])) ∧
    (query PyVal.none
      (fun _ => TransportOutcome.response 200
        (PyVal.list [PyVal.dict [("code", PyVal.int 2)]]))
      Option.none "POST" (some getIrLightsBody)).sent.length = 1 :=
  claim_C7_returns_envelope_as_is PyVal.none Option.none (some getIrLightsBody)
    _ (PyVal.list [PyVal.dict [("code", PyVal.int 2)]]) rfl

/-- Counterexample to C3: `query` has no `try`/`except`, so a transport-level
exception (connection error, timeout) raised by the session is NOT converted
into a null result — it propagates to the caller on the very first attempt. -/
theorem claim_C3_counterexample :
    (query PyVal.none (fun _ => TransportOutcome.raise "ConnectionError")
      Option.none "POST" (some getIrLightsBody)).result
      = Except.error "ConnectionError" ∧
    (query PyVal.none (fun _ => TransportOutcome.raise "ConnectionError")
      Option.none "POST" (some getIrLightsBody)).result
      ≠ Except.ok Option.none := by
  constructor
  · rfl
  · simp [query, queryLoop]

/-- Claim C3 as amended: if all 3 attempts yield a non-200 transport STATUS,
the operation returns a null result with no exception after exactly 3
attempts; but a transport-level exception (connection error, timeout) is not
caught — it propagates to the caller, ending the loop at the attempt that
raised. -/
theorem claim_C3_amended_exhaustion_and_raise :
    (∀ (tok : PyVal) (qp : Option (List (String × PyVal)))
       (body : Option PyVal) (T : Transport),
      (∀ i, 1 ≤ i → i ≤ 3 →
        ∃ s b, T i = TransportOutcome.response s b ∧ s ≠ 200) →
      (query tok T qp "POST" body).result = Except.ok Option.none ∧
      (query tok T qp "POST" body).sent.length = 3) ∧
    (∀ (tok : PyVal) (qp : Option (List (String × PyVal)))
       (body : Option PyVal) (T : Transport) (e : String),
      T 1 = TransportOutcome.raise e →
      (query tok T qp "POST" body).result = Except.error e ∧
      (query tok T qp "POST" body).sent.length = 1) := by
  constructor
  · intro tok qp body T h
    obtain ⟨s1, b1, h1, hs1⟩ := h 1 (by norm_num) (by norm_num)
    obtain ⟨s2, b2, h2, hs2⟩ := h 2 (by norm_num) (by norm_num)
    obtain ⟨s3, b3, h3, hs3⟩ := h 3 (by norm_num) (by norm_num)
    constructor <;> simp [query, queryLoop, h1, hs1, h2, hs2, h3, hs3]
  · intro tok qp body T e h
    constructor <;> simp [query, queryLoop, h]

/-- Witness for the amended C3: a transport stuck at 503 gives a null result
after 3 attempts; a transport that raises propagates the exception. -/
theorem claim_C3_amended_exhaustion_and_raise_witness :
    ((query PyVal.none (fun _ => TransportOutcome.response 503 PyVal.none)
        Option.none "POST" (some getIrLightsBody)).result
        = Except.ok Option.none ∧
      (query PyVal.none (fun _ => TransportOutcome.response 503 PyVal.none)
        Option.none "POST" (some getIrLightsBody)).sent.length = 3) ∧
    ((query PyVal.none (fun _ => TransportOutcome.raise "Timeout")
        Option.none "POST" (some getIrLightsBody)).result
        = Except.error "Timeout" ∧
      (query PyVal.none (fun _ => TransportOutcome.raise "Timeout")
        Option.none "POST" (some getIrLightsBody)).sent.length = 1) :=
  ⟨claim_C3_amended_exhaustion_and_raise.1 PyVal.none Option.none
      (some getIrLightsBody) _
      (by intro i hi1 hi2; exact ⟨503, PyVal.none, rfl, by norm_num⟩),
    claim_C3_amended_exhaustion_and_raise.2 PyVal.none Option.none
      (some getIrLightsBody) _ "Timeout" rfl⟩

/-! ### Claims about token handling (C4, C10) -/

/-- Claim C4: once the token field is set (non-`None`), every request sent by
`query` carries `token=<value>` among its query parameters; while the token is
absent (and the caller did not itself pass a `token` parameter, as no caller in
the library does), no `token` parameter is sent. -/
theorem claim_C4_token_inclusion (tok : PyVal) (T : Transport)
    (qp : Option (List (String × PyVal))) (method : String)
    (body : Option PyVal) :
    (tok ≠ PyVal.none →
      (query tok T qp method body).sent.Forall
        (fun r => List.lookup "token" r.params = some tok)) ∧
    (tok = PyVal.none → List.lookup "token" (qp.getD []) = Option.none →
      (query tok T qp method body).sent.Forall
        (fun r => List.lookup "token" r.params = Option.none)) := by
  constructor
  · intro htok
    rw [List.forall_iff_forall_mem]
    intro r hr
    have hre := queryLoop_sent_mem T method (effParams tok qp) body 3 1 r hr
    rw [hre]
    simp only
    rw [effParams_of_token tok qp htok]
    exact lookup_dictUpdate _ _ _
  · intro htok hq
    rw [List.forall_iff_forall_mem]
    intro r hr
    have hre := queryLoop_sent_mem T method (effParams tok qp) body 3 1 r hr
    rw [hre]
    simp only
    subst htok
    rw [effParams_of_none]
    exact hq

/-- Witness for C4: with a token set, the single Login-style request carries
the token parameter; with no token, it does not. -/
theorem claim_C4_token_inclusion_witness :
    (query (PyVal.str "tok123")
        (fun _ => TransportOutcome.response 200 (PyVal.list []))
        (some [("cmd", PyVal.str "Login")]) "POST" Option.none).sent.Forall
      (fun r => List.lookup "token" r.params = some (PyVal.str "tok123")) ∧
    (query PyVal.none
        (fun _ => TransportOutcome.response 200 (PyVal.list []))
        (some [("cmd", PyVal.str "Login")]) "POST" Option.none).sent.Forall
      (fun r => List.lookup "token" r.params = Option.none) :=
  ⟨(claim_C4_token_inclusion (PyVal.str "tok123") _
      (some [("cmd", PyVal.str "Login")]) "POST" Option.none).1
      (fun h => PyVal.noConfusion h),
    (claim_C4_token_inclusion PyVal.none _
      (some [("cmd", PyVal.str "Login")]) "POST" Option.none).2 rfl rfl⟩

/-- Claim C10 (implicit frame effect): when the caller supplies a
`query_params` dict and a token is set, `query` mutates the caller-owned dict
in place via `update`, inserting the `token` key; when the key was absent the
caller's dict is observably changed (the binding is appended). -/
theorem claim_C10_params_mutation (tok : PyVal) (T : Transport)
    (params : List (String × PyVal)) (method : String) (body : Option PyVal)
    (htok : tok ≠ PyVal.none)
    (hfresh : List.lookup "token" params = Option.none) :
    (query tok T (some params) method body).paramsAfter
      = params ++ [("token", tok)] ∧
    List.lookup "token" (query tok T (some params) method body).paramsAfter
      = some tok ∧
    (query tok T (some params) method body).paramsAfter ≠ params := by
  have heff : (query tok T (some params) method body).paramsAfter
      = dictUpdate params "token" tok := by
    show effParams tok (some params) = _
    exact effParams_of_token tok (some params) htok
  have hupd : dictUpdate params "token" tok = params ++ [("token", tok)] := by
    unfold dictUpdate
    rw [hfresh]
    rfl
  refine ⟨heff.trans hupd, ?_, ?_⟩
  · rw [heff]; exact lookup_dictUpdate _ _ _
  · rw [heff, hupd]
    intro h
    have := congrArg List.length h
    simp at this

/-- Witness for C10: a fresh `{'cmd': 'Search'}` dict passed with a token set
comes back with the token binding appended. -/
theorem claim_C10_params_mutation_witness :
    (query (PyVal.str "t0")
        (fun _ => TransportOutcome.response 200 (PyVal.list []))
        (some [("cmd", PyVal.str "Search")]) "POST" Option.none).paramsAfter
      = [("cmd", PyVal.str "Search")] ++ [("token", PyVal.str "t0")] ∧
    List.lookup "token"
      (query (PyVal.str "t0")
        (fun _ => TransportOutcome.response 200 (PyVal.list []))
        (some [("cmd", PyVal.str "Search")]) "POST" Option.none).paramsAfter
      = some (PyVal.str "t0") ∧
    (query (PyVal.str "t0")
        (fun _ => TransportOutcome.response 200 (PyVal.list []))
        (some [("cmd", PyVal.str "Search")]) "POST" Option.none).paramsAfter
      ≠ [("cmd", PyVal.str "Search")] :=
  claim_C10_params_mutation (PyVal.str "t0") _ [("cmd", PyVal.str "Search")]
    "POST" Option.none (fun h => PyVal.noConfusion h) rfl

/-! ### Shared reduction lemmas for the per-command operations -/

/-- If the first attempt returns 200 with body `env`, `query` returns `env`. -/
theorem query_result_of_first_200 (tok : PyVal) (T : Transport)
    (qp : Option (List (String × PyVal))) (body : Option PyVal) (env : PyVal)
    (h : T 1 = TransportOutcome.response 200 env) :
    (query tok T qp "POST" body).result = Except.ok (some env) := by
  simp [query, queryLoop, h]

/-- If the first attempt returns 200, exactly one request is sent. -/
theorem query_sent_of_first_200 (tok : PyVal) (T : Transport)
    (qp : Option (List (String × PyVal))) (body : Option PyVal) (env : PyVal)
    (h : T 1 = TransportOutcome.response 200 env) :
    (query tok T qp "POST" body).sent = [⟨"POST", effParams tok qp, body⟩] := by
  simp [query, queryLoop, h]

/-- If every one of the 3 attempts yields a non-200 status, `query` returns
`None` after sending 3 requests. -/
theorem query_result_of_all_non200 (tok : PyVal) (T : Transport)
    (qp : Option (List (String × PyVal))) (body : Option PyVal)
    (h : ∀ i, 1 ≤ i → i ≤ 3 →
      ∃ s b, T i = TransportOutcome.response s b ∧ s ≠ 200) :
    (query tok T qp "POST" body).result = Except.ok Option.none ∧
    (query tok T qp "POST" body).sent.length = 3 := by
  obtain ⟨s1, b1, h1, hs1⟩ := h 1 (by norm_num) (by norm_num)
  obtain ⟨s2, b2, h2, hs2⟩ := h 2 (by norm_num) (by norm_num)
  obtain ⟨s3, b3, h3, hs3⟩ := h 3 (by norm_num) (by norm_num)
  constructor <;> simp [query, queryLoop, h1, hs1, h2, hs2, h3, hs3]

/-! ### Claims about construction and login (C2, C6) -/

/-- Counterexample to C2: with a transport stuck on status 500, construction
does NOT leave the token unset and return quietly — `login` runs
`data = data[0]` on the `None` returned by `query`, so a `TypeError` escapes
`__init__`; moreover 3 login HTTP requests are issued, not one. -/
theorem claim_C2_counterexample :
    (init "http://cam" "u" "p"
      (fun _ => TransportOutcome.response 500 PyVal.none)).2
      = Except.error "TypeError" ∧
    (init "http://cam" "u" "p"
      (fun _ => TransportOutcome.response 500 PyVal.none)).1.length = 3 := by
  constructor <;> rfl

/-- Claim C2 as amended: construction performs a single login operation.  When
the first attempt returns 200 with a result whose first element has code 0 and
the nested `value.Token.name` present, exactly one HTTP login request is sent
and the token is set to that name.  When the 200 response's first element is a
dict with a nonzero code, the token remains absent and no exception escapes.
But when all 3 attempts yield non-200 statuses, `query` returns `None` and a
`TypeError` escapes construction (after 3 identical login requests). -/
theorem claim_C2_amended_construction :
    (∀ (base u pw t : String) (T : Transport),
      T 1 = TransportOutcome.response 200
        (PyVal.list [PyVal.dict
          [("code", PyVal.int 0),
           ("value", PyVal.dict
             [("Token", PyVal.dict [("name", PyVal.str t)])])]]) →
      (init base u pw T).1
        = [⟨"POST", [("cmd", PyVal.str "Login")], some (loginBody u pw)⟩] ∧
      (init base u pw T).2 = Except.ok ⟨base, u, pw, PyVal.str t⟩) ∧
    (∀ (base u pw : String) (c : Int) (T : Transport), c ≠ 0 →
      T 1 = TransportOutcome.response 200
        (PyVal.list [PyVal.dict [("code", PyVal.int c)]]) →
      (init base u pw T).2 = Except.ok ⟨base, u, pw, PyVal.none⟩) ∧
    (∀ (base u pw : String) (T : Transport),
      (∀ i, 1 ≤ i → i ≤ 3 →
        ∃ s b, T i = TransportOutcome.response s b ∧ s ≠ 200) →
      (init base u pw T).2 = Except.error "TypeError" ∧
      (init base u pw T).1.length = 3) := by
  refine ⟨?_, ?_, ?_⟩
  · intro base u pw t T hT
    have hres := query_result_of_first_200 PyVal.none T
      (some [("cmd", PyVal.str "Login")]) (some (loginBody u pw)) _ hT
    have hsent := query_sent_of_first_200 PyVal.none T
      (some [("cmd", PyVal.str "Login")]) (some (loginBody u pw)) _ hT
    constructor
    · simp only [init, login]
      rw [hsent]
      rfl
    · simp only [init, login]
      rw [hres]
      simp [subscript0, isDict, dictGet, pyEqInt, pyGet, List.lookup]
  · intro base u pw c T hc hT
    have hres := query_result_of_first_200 PyVal.none T
      (some [("cmd", PyVal.str "Login")]) (some (loginBody u pw)) _ hT
    simp only [init, login]
    rw [hres]
    simp [subscript0, isDict, dictGet, pyEqInt, List.lookup, hc]
  · intro base u pw T hT
    have hres := query_result_of_all_non200 PyVal.none T
      (some [("cmd", PyVal.str "Login")]) (some (loginBody u pw)) hT
    constructor
    · simp only [init, login]
      rw [hres.1]
      simp [subscript0]
    · simp only [init, login]
      exact hres.2

/-- Witness for the amended C2: a successful login, a rejected login, and an
unreachable camera, each on a concrete transport. -/
theorem claim_C2_amended_construction_witness :
    ((init "http://cam" "u" "p"
        (fun _ => TransportOutcome.response 200
          (PyVal.list [PyVal.dict
            [("code", PyVal.int 0),
             ("value", PyVal.dict
               [("Token", PyVal.dict [("name", PyVal.str "abc")])])]]))).1
      = [⟨"POST", [("cmd", PyVal.str "Login")], some (loginBody "u" "p")⟩] ∧
      (init "http://cam" "u" "p"
        (fun _ => TransportOutcome.response 200
          (PyVal.list [PyVal.dict
            [("code", PyVal.int 0),
             ("value", PyVal.dict
               [("Token", PyVal.dict [("name", PyVal.str "abc")])])]]))).2
      = Except.ok ⟨"http://cam", "u", "p", PyVal.str "abc"⟩) ∧
    (init "http://cam" "u" "p"
      (fun _ => TransportOutcome.response 200
        (PyVal.list [PyVal.dict [("code", PyVal.int 1)]]))).2
      = Except.ok ⟨"http://cam", "u", "p", PyVal.none⟩ ∧
    ((init "http://cam" "u" "p"
        (fun _ => TransportOutcome.response 404 PyVal.none)).2
      = Except.error "TypeError" ∧
      (init "http://cam" "u" "p"
        (fun _ => TransportOutcome.response 404 PyVal.none)).1.length = 3) :=
  ⟨claim_C2_amended_construction.1 "http://cam" "u" "p" "abc" _ rfl,
    claim_C2_amended_construction.2.1 "http://cam" "u" "p" 1 _ (by norm_num) rfl,
    claim_C2_amended_construction.2.2 "http://cam" "u" "p" _
      (by intro i hi1 hi2; exact ⟨404, PyVal.none, rfl, by norm_num⟩)⟩

/-- Counterexample to C6: a success payload missing only the LEAF field of the
expected nested chain does not abort.  On
`[{code: 0, value: {IrLights: {}}}]` the final `.get('state')` is applied to a
dict without the key and returns `None`, so `get_ir_lights` returns `None`
with no exception; likewise on `[{code: 0, value: {Token: {}}}]` `login`
completes quietly, setting the token to `None`. -/
theorem claim_C6_counterexample :
    (get_ir_lights ⟨"http://cam", "u", "p", PyVal.none⟩
      (fun _ => TransportOutcome.response 200
        (PyVal.list [PyVal.dict
          [("code", PyVal.int 0),
           ("value", PyVal.dict [("IrLights", PyVal.dict [])])]]))).2
      = Except.ok PyVal.none ∧
    (get_ir_lights ⟨"http://cam", "u", "p", PyVal.none⟩
      (fun _ => TransportOutcome.response 200
        (PyVal.list [PyVal.dict
          [("code", PyVal.int 0),
           ("value", PyVal.dict [("IrLights", PyVal.dict [])])]]))).2
      ≠ Except.error "AttributeError" ∧
    (login ⟨"http://cam", "u", "p", PyVal.none⟩
      (fun _ => TransportOutcome.response 200
        (PyVal.list [PyVal.dict
          [("code", PyVal.int 0),
           ("value", PyVal.dict [("Token", PyVal.dict [])])]]))).2
      = Except.ok ⟨"http://cam", "u", "p", PyVal.none⟩ := by
  refine ⟨rfl, ?_, rfl⟩
  simp [get_ir_lights, query, queryLoop, effParams, subscript0, isDict,
    dictGet, pyEqInt, pyGet, List.lookup]

/-- Claim C6 as amended: a success-coded first result missing an INTERMEDIATE
link of the nested payload (the `value` field itself, or the command dict
under it) aborts with `AttributeError` from the unguarded `.get` chain; but
when only the leaf field is missing (`value.Token.name`,
`value.IrLights.state`) the final `.get` returns `None` and no exception is
raised: `login` completes with the token set to `None` and `get_ir_lights`
returns `None`. -/
theorem claim_C6_amended_nested_field_access (st : PyReolinkState)
    (T : Transport) :
    (T 1 = TransportOutcome.response 200
        (PyVal.list [PyVal.dict [("code", PyVal.int 0)]]) →
      (login st T).2 = Except.error "AttributeError" ∧
      (get_ir_lights st T).2 = Except.error "AttributeError") ∧
    (T 1 = TransportOutcome.response 200
        (PyVal.list [PyVal.dict
          [("code", PyVal.int 0), ("value", PyVal.dict [])]]) →
      (login st T).2 = Except.error "AttributeError" ∧
      (get_ir_lights st T).2 = Except.error "AttributeError") ∧
    (T 1 = TransportOutcome.response 200
        (PyVal.list [PyVal.dict
          [("code", PyVal.int 0),
           ("value", PyVal.dict [("Token", PyVal.dict [])])]]) →
      (login st T).2 = Except.ok { st with token := PyVal.none }) ∧
    (T 1 = TransportOutcome.response 200
        (PyVal.list [PyVal.dict
          [("code", PyVal.int 0),
           ("value", PyVal.dict [("IrLights", PyVal.dict [])])]]) →
      (get_ir_lights st T).2 = Except.ok PyVal.none) := by
  refine ⟨?_, ?_, ?_, ?_⟩
  · intro hT
    constructor
    · have hres := query_result_of_first_200 st.token T
        (some [("cmd", PyVal.str "Login")])
        (some (loginBody st.username st.password)) _ hT
      simp only [login]
      rw [hres]
      simp [subscript0, isDict, dictGet, pyEqInt, pyGet, List.lookup]
    · have hres := query_result_of_first_200 st.token T
        Option.none (some getIrLightsBody) _ hT
      simp only [get_ir_lights]
      rw [hres]
      simp [subscript0, isDict, dictGet, pyEqInt, pyGet, List.lookup]
  · intro hT
    constructor
    · have hres := query_result_of_first_200 st.token T
        (some [("cmd", PyVal.str "Login")])
        (some (loginBody st.username st.password)) _ hT
      simp only [login]
      rw [hres]
      simp [subscript0, isDict, dictGet, pyEqInt, pyGet, List.lookup]
    · have hres := query_result_of_first_200 st.token T
        Option.none (some getIrLightsBody) _ hT
      simp only [get_ir_lights]
      rw [hres]
      simp [subscript0, isDict, dictGet, pyEqInt, pyGet, List.lookup]
  · intro hT
    have hres := query_result_of_first_200 st.token T
      (some [("cmd", PyVal.str "Login")])
      (some (loginBody st.username st.password)) _ hT
    simp only [login]
    rw [hres]
    simp [subscript0, isDict, dictGet, pyEqInt, pyGet, List.lookup]
  · intro hT
    have hres := query_result_of_first_200 st.token T
      Option.none (some getIrLightsBody) _ hT
    simp only [get_ir_lights]
    rw [hres]
    simp [subscript0, isDict, dictGet, pyEqInt, pyGet, List.lookup]

/-- Witness for the amended C6: the four concrete envelopes — `value` missing,
`value` empty, `Token`/`IrLights` present but leaf missing — on concrete
transports. -/
theorem claim_C6_amended_nested_field_access_witness :
    ((login ⟨"b", "u", "p", PyVal.none⟩
        (fun _ => TransportOutcome.response 200
          (PyVal.list [PyVal.dict [("code", PyVal.int 0)]]))).2
      = Except.error "AttributeError" ∧
      (get_ir_lights ⟨"b", "u", "p", PyVal.none⟩
        (fun _ => TransportOutcome.response 200
          (PyVal.list [PyVal.dict [("code", PyVal.int 0)]]))).2
      = Except.error "AttributeError") ∧
    ((login ⟨"b", "u", "p", PyVal.none⟩
        (fun _ => TransportOutcome.response 200
          (PyVal.list [PyVal.dict
            [("code", PyVal.int 0), ("value", PyVal.dict [])]]))).2
      = Except.error "AttributeError" ∧
      (get_ir_lights ⟨"b", "u", "p", PyVal.none⟩
        (fun _ => TransportOutcome.response 200
          (PyVal.list [PyVal.dict
            [("code", PyVal.int 0), ("value", PyVal.dict [])]]))).2
      = Except.error "AttributeError") ∧
    (login ⟨"b", "u", "p", PyVal.none⟩
      (fun _ => TransportOutcome.response 200
        (PyVal.list [PyVal.dict
          [("code", PyVal.int 0),
           ("value", PyVal.dict [("Token", PyVal.dict [])])]]))).2
      = Except.ok ⟨"b", "u", "p", PyVal.none⟩ ∧
    (get_ir_lights ⟨"b", "u", "p", PyVal.none⟩
      (fun _ => TransportOutcome.response 200
        (PyVal.list [PyVal.dict
          [("code", PyVal.int 0),
           ("value", PyVal.dict [("IrLights", PyVal.dict [])])]]))).2
      = Except.ok PyVal.none :=
  ⟨(claim_C6_amended_nested_field_access ⟨"b", "u", "p", PyVal.none⟩ _).1 rfl,
    (claim_C6_amended_nested_field_access ⟨"b", "u", "p", PyVal.none⟩ _).2.1 rfl,
    (claim_C6_amended_nested_field_access ⟨"b", "u", "p", PyVal.none⟩ _).2.2.1 rfl,
    (claim_C6_amended_nested_field_access ⟨"b", "u", "p", PyVal.none⟩ _).2.2.2 rfl⟩

/-! ### Claims about the per-command wrappers (C5, C8, C9) -/

/-- Counterexample to C5: when `query` exhausts its retries and yields `None`
(a failure outcome of the underlying query call), `get_ir_lights` does not
return a null value — `data = data[0]` on `None` raises `TypeError`. -/
theorem claim_C5_counterexample :
    (get_ir_lights ⟨"http://cam", "u", "p", PyVal.none⟩
      (fun _ => TransportOutcome.response 500 PyVal.none)).2
      = Except.error "TypeError" ∧
    (get_ir_lights ⟨"http://cam", "u", "p", PyVal.none⟩
      (fun _ => TransportOutcome.response 500 PyVal.none)).2
      ≠ Except.ok PyVal.none := by
  constructor
  · rfl
  · simp [get_ir_lights, query, queryLoop, effParams, subscript0]

/-- Claim C5 as amended: on a well-formed failure envelope (first result a dict
with nonzero code) every wrapper returns a null value / logs failure without
raising; but on an absent (null) response envelope — transport exhaustion —
every wrapper raises `TypeError` instead of returning null. -/
theorem claim_C5_amended_wrapper_failure :
    (∀ (st : PyReolinkState) (T : Transport) (c : Int), c ≠ 0 →
      T 1 = TransportOutcome.response 200
        (PyVal.list [PyVal.dict [("code", PyVal.int c)]]) →
      (get_ir_lights st T).2 = Except.ok PyVal.none ∧
      (set_ir_lights st T "Off").2 = Except.ok false ∧
      (goto_ptz_preset st T 5).2 = Except.ok false) ∧
    (∀ (st : PyReolinkState) (T : Transport),
      (∀ i, 1 ≤ i → i ≤ 3 →
        ∃ s b, T i = TransportOutcome.response s b ∧ s ≠ 200) →
      (get_ir_lights st T).2 = Except.error "TypeError" ∧
      (set_ir_lights st T "Off").2 = Except.error "TypeError" ∧
      (goto_ptz_preset st T 5).2 = Except.error "TypeError") := by
  constructor
  · intro st T c hc hT
    refine ⟨?_, ?_, ?_⟩
    · have hres := query_result_of_first_200 st.token T Option.none
        (some getIrLightsBody) _ hT
      simp only [get_ir_lights]
      rw [hres]
      simp [subscript0, isDict, dictGet, pyEqInt, List.lookup, hc]
    · have hres := query_result_of_first_200 st.token T Option.none
        (some (setIrLightsBody "Off")) _ hT
      simp only [set_ir_lights]
      rw [hres]
      simp [subscript0, isDict, dictGet, pyEqInt, List.lookup, hc]
    · have hres := query_result_of_first_200 st.token T Option.none
        (some (gotoPtzPresetBody 5)) _ hT
      simp only [goto_ptz_preset]
      rw [hres]
      simp [subscript0, isDict, dictGet, pyEqInt, List.lookup, hc]
  · intro st T hT
    refine ⟨?_, ?_, ?_⟩
    · have hres := query_result_of_all_non200 st.token T Option.none
        (some getIrLightsBody) hT
      simp only [get_ir_lights]
      rw [hres.1]
      simp [subscript0]
    · have hres := query_result_of_all_non200 st.token T Option.none
        (some (setIrLightsBody "Off")) hT
      simp only [set_ir_lights]
      rw [hres.1]
      simp [subscript0]
    · have hres := query_result_of_all_non200 st.token T Option.none
        (some (gotoPtzPresetBody 5)) hT
      simp only [goto_ptz_preset]
      rw [hres.1]
      simp [subscript0]

/-- Witness for the amended C5: rejection envelope `[{code: 1}]` versus a
camera stuck on status 500. -/
theorem claim_C5_amended_wrapper_failure_witness :
    ((get_ir_lights ⟨"b", "u", "p", PyVal.none⟩
        (fun _ => TransportOutcome.response 200
          (PyVal.list [PyVal.dict [("code", PyVal.int 1)]]))).2
      = Except.ok PyVal.none ∧
      (set_ir_lights ⟨"b", "u", "p", PyVal.none⟩
        (fun _ => TransportOutcome.response 200
          (PyVal.list [PyVal.dict [("code", PyVal.int 1)]])) "Off").2
      = Except.ok false ∧
      (goto_ptz_preset ⟨"b", "u", "p", PyVal.none⟩
        (fun _ => TransportOutcome.response 200
          (PyVal.list [PyVal.dict [("code", PyVal.int 1)]])) 5).2
      = Except.ok false) ∧
    ((get_ir_lights ⟨"b", "u", "p", PyVal.none⟩
        (fun _ => TransportOutcome.response 500 PyVal.none)).2
      = Except.error "TypeError" ∧
      (set_ir_lights ⟨"b", "u", "p", PyVal.none⟩
        (fun _ => TransportOutcome.response 500 PyVal.none) "Off").2
      = Except.error "TypeError" ∧
      (goto_ptz_preset ⟨"b", "u", "p", PyVal.none⟩
        (fun _ => TransportOutcome.response 500 PyVal.none) 5).2
      = Except.error "TypeError") :=
  ⟨claim_C5_amended_wrapper_failure.1 ⟨"b", "u", "p", PyVal.none⟩ _ 1
      (by norm_num) rfl,
    claim_C5_amended_wrapper_failure.2 ⟨"b", "u", "p", PyVal.none⟩ _
      (by intro i hi1 hi2; exact ⟨500, PyVal.none, rfl, by norm_num⟩)⟩

/-- Claim C8: `get_ir_lights` on the envelope
`[{code: 0, value: {IrLights: {state: "Auto"}}}]` returns `"Auto"`;
on `[{code: 1}]` it returns `None`. -/
theorem claim_C8_get_ir_lights_values (st : PyReolinkState) :
    (get_ir_lights st
      (fun _ => TransportOutcome.response 200
        (PyVal.list [PyVal.dict
          [("code", PyVal.int 0),
           ("value", PyVal.dict
             [("IrLights", PyVal.dict [("state", PyVal.str "Auto")])])]]))).2
      = Except.ok (PyVal.str "Auto") ∧
    (get_ir_lights st
      (fun _ => TransportOutcome.response 200
        (PyVal.list [PyVal.dict [("code", PyVal.int 1)]]))).2
      = Except.ok PyVal.none := by
  constructor <;> rfl

/-- Claim C9: for every session state and every argument, `set_ir_lights`
sends a single-element body with `cmd="SetIrLights"` and
`param.IrLights.state=<state>` (concretely for `"Off"`), its logged success is
determined solely by `code == 0` in the first response element, and
`goto_ptz_preset 5` sends `param={channel: 0, id: 5, op: "ToPos", speed: 32}`. -/
theorem claim_C9_mutating_request_bodies (st : PyReolinkState) (T : Transport) :
    (∀ s : String, (set_ir_lights st T s).1.Forall
      (fun r => r.body = some (setIrLightsBody s) ∧ r.method = "POST")) ∧
    setIrLightsBody "Off"
      = PyVal.list [PyVal.dict
          [("action", PyVal.int 0),
           ("cmd", PyVal.str "SetIrLights"),
           ("param", PyVal.dict
             [("IrLights", PyVal.dict [("state", PyVal.str "Off")])])]] ∧
    (∀ (d : List (String × PyVal)) (rest : List PyVal),
      T 1 = TransportOutcome.response 200 (PyVal.list (PyVal.dict d :: rest)) →
      ((set_ir_lights st T "Off").2 = Except.ok true ↔
        pyEqInt (dictGet (PyVal.dict d) "code") 0 = true)) ∧
    (∀ pid : Int, (goto_ptz_preset st T pid).1.Forall
      (fun r => r.body = some (gotoPtzPresetBody pid))) ∧
    gotoPtzPresetBody 5
      = PyVal.list [PyVal.dict
          [("action", PyVal.int 0),
           ("cmd", PyVal.str "PtzCtrl"),
           ("param", PyVal.dict
             [("channel", PyVal.int 0), ("id", PyVal.int 5),
              ("op", PyVal.str "ToPos"), ("speed", PyVal.int 32)])]] := by
  refine ⟨?_, rfl, ?_, ?_, rfl⟩
  · intro s
    rw [List.forall_iff_forall_mem]
    intro r hr
    have hre := queryLoop_sent_mem T "POST" (effParams st.token Option.none)
      (some (setIrLightsBody s)) 3 1 r hr
    rw [hre]
    exact ⟨rfl, rfl⟩
  · intro d rest hT
    have hres := query_result_of_first_200 st.token T Option.none
      (some (setIrLightsBody "Off")) _ hT
    simp only [set_ir_lights]
    rw [hres]
    simp [subscript0, isDict]
  · intro pid
    rw [List.forall_iff_forall_mem]
    intro r hr
    have hre := queryLoop_sent_mem T "POST" (effParams st.token Option.none)
      (some (gotoPtzPresetBody pid)) 3 1 r hr
    rw [hre]
    rfl

/-- Witness for C9 on a concrete transport answering `[{code: 0}]`. -/
theorem claim_C9_mutating_request_bodies_witness :
    (set_ir_lights ⟨"b", "u", "p", PyVal.none⟩
      (fun _ => TransportOutcome.response 200
        (PyVal.list [PyVal.dict [("code", PyVal.int 0)]])) "Off").1.Forall
      (fun r => r.body = some (setIrLightsBody "Off") ∧ r.method = "POST") ∧
    ((set_ir_lights ⟨"b", "u", "p", PyVal.none⟩
        (fun _ => TransportOutcome.response 200
          (PyVal.list [PyVal.dict [("code", PyVal.int 0)]])) "Off").2
      = Except.ok true ↔
      pyEqInt (dictGet (PyVal.dict [("code", PyVal.int 0)]) "code") 0 = true) ∧
    (goto_ptz_preset ⟨"b", "u", "p", PyVal.none⟩
      (fun _ => TransportOutcome.response 200
        (PyVal.list [PyVal.dict [("code", PyVal.int 0)]])) 5).1.Forall
      (fun r => r.body = some (gotoPtzPresetBody 5)) :=
  ⟨(claim_C9_mutating_request_bodies ⟨"b", "u", "p", PyVal.none⟩ _).1 "Off",
    (claim_C9_mutating_request_bodies ⟨"b", "u", "p", PyVal.none⟩ _).2.2.1
      [("code", PyVal.int 0)] [] rfl,
    (claim_C9_mutating_request_bodies ⟨"b", "u", "p", PyVal.none⟩ _).2.2.2.1 5⟩
